import Mathlib

/-
Shallow embedding of the session-cookie and token components of the
firebase-server-sdk-go repository (auth.go, session_api_request.go,
token.go and its test), together with proofs about the claims of the
specification.  Go maps are embedded as association lists, Go dynamic
values (interface values) as a small inductive of the shapes that occur,
Go errors as an inductive of the error values the sources construct, and
fallible Go functions as Except-valued Lean functions.  Collaborators
whose implementation lives in files not present here (the token verifier,
the account-lookup endpoint, the bearer-token source) are passed as
function parameters, matching the way the sources call them.
-/

namespace Firebase

/-- Dynamic value stored under a key of a Token claims map
(Go: the interface values that occur in token.go). -/
inductive GoVal where
  | vInt (n : Int)
  | vStr (s : String)
  | vBool (b : Bool)
  deriving DecidableEq

/-- Lookup in a Go map embedded as an association list. -/
def mapLookup {β : Type _} : List (String × β) → String → Option β
  | [], _ => none
  | (k, v) :: rest, key => if k = key then some v else mapLookup rest key

/-- Insertion into a Go map embedded as an association list:
replaces the binding of the key when present, appends it otherwise. -/
def mapInsert {β : Type _} : List (String × β) → String → β → List (String × β)
  | [], key, val => [(key, val)]
  | (k, v) :: rest, key, val =>
    if k = key then (key, val) :: rest else (k, v) :: mapInsert rest key val

/-- Iterated insertion of every binding of src into dst
(Go: for key, val := range src with assignment into dst). -/
def insertAll {β : Type _} (dst : List (String × β)) (src : List (String × β)) :
    List (String × β) :=
  src.foldl (fun acc kv => mapInsert acc kv.1 kv.2) dst

/-- Token from token.go: the decoded Firebase ID token.  The Claims field is a
Go map that may be nil, embedded as an Option of an association list. -/
structure Token where
  Issuer : String
  Audience : String
  Expires : Int
  IssuedAt : Int
  Subject : String
  UID : String
  Claims : Option (List (String × GoVal))
  deriving DecidableEq

/-- Read of a possibly-nil Go map: reading a nil map yields no value. -/
def claimsLookup (c : Option (List (String × GoVal))) (k : String) : Option GoVal :=
  match c with
  | none => none
  | some m => mapLookup m k

/-- Token accessor from token.go: the auth_time claim when it is present with
integer type, 0 otherwise (the checked two-value type assertion). -/
def Token.AuthTime (t : Token) : Int :=
  match claimsLookup t.Claims "auth_time" with
  | some (GoVal.vInt n) => n
  | _ => 0

/-- Token accessor from token.go: the name claim when present as a string. -/
def Token.Name (t : Token) : String :=
  match claimsLookup t.Claims "name" with
  | some (GoVal.vStr s) => s
  | _ => ""

/-- Token accessor from token.go: the picture claim when present as a string. -/
def Token.Picture (t : Token) : String :=
  match claimsLookup t.Claims "picture" with
  | some (GoVal.vStr s) => s
  | _ => ""

/-- Token accessor from token.go: the email claim when present as a string. -/
def Token.Email (t : Token) : String :=
  match claimsLookup t.Claims "email" with
  | some (GoVal.vStr s) => s
  | _ => ""

/-- Token accessor from token.go: the email_verified claim when present as a
boolean. -/
def Token.IsEmailVerified (t : Token) : Bool :=
  match claimsLookup t.Claims "email_verified" with
  | some (GoVal.vBool b) => b
  | _ => false

/-- SetClaims from token.go: when the Claims map is nil it becomes the given
map, otherwise every binding of the given map is assigned into it. -/
def Token.SetClaims (t : Token) (claims : List (String × GoVal)) : Token :=
  match t.Claims with
  | none => { t with Claims := some claims }
  | some old => { t with Claims := some (insertAll old claims) }

/-- Error values constructed by the sources: the package-level validator
errors, the named error strings built with errors.New, and wrapped errors
built with errors.Wrap. -/
inductive GoError where
  | illegalType
  | missingRequestTarget
  | userNotFound
  | message (s : String)
  | wrap (s : String) (e : GoError)
  deriving DecidableEq

/-- UserRecord as consumed by session_api_request.go: the account record with
the revocation threshold in milliseconds. -/
structure UserRecord where
  UID : String
  Email : String
  TokensValidAfterMillis : Int
  deriving DecidableEq

/-- checkRevoked from session_api_request.go: reads the user id from the
token, fetches the account record for it, and returns whether the token
issue time in milliseconds is strictly below the account threshold.  The
account fetch (getAccountByUID, defined in another file) is passed as the
accounts parameter. -/
def checkRevoked (accounts : String → Except GoError UserRecord) (token : Token) :
    Except GoError Bool :=
  let uid := token.UID
  match accounts uid with
  | Except.error e => Except.error e
  | Except.ok user =>
    let iat := token.IssuedAt
    Except.ok (decide (iat * 1000 < user.TokensValidAfterMillis))

/-- verifySessionCookie from session_api_request.go: builds the ID-token
verifier for the project and runs it on the cookie.  The verifier
constructor newIDTokenVerifier (defined in another file) is passed as the
newVerifier parameter. -/
def verifySessionCookie
    (newVerifier : String → Except GoError (String → Except GoError Token))
    (projectID : String) (cookie : String) : Except GoError Token :=
  match newVerifier projectID with
  | Except.error e => Except.error e
  | Except.ok verifier => verifier cookie

/-- VerifyIDTokenWithTransport from auth.go: after the service-account check
succeeds, builds the ID-token verifier for the project and runs it on the
token string.  The service-account check and the verifier constructor are
passed as parameters. -/
def verifyIDTokenWithTransport (ensureSA : Option GoError)
    (newVerifier : String → Except GoError (String → Except GoError Token))
    (projectID : String) (tokenString : String) : Except GoError Token :=
  match ensureSA with
  | some e => Except.error e
  | none =>
    match newVerifier projectID with
    | Except.error e => Except.error e
    | Except.ok verifier => verifier tokenString

/-- Acceptance of a verification outcome: true exactly on success. -/
def accepts (r : Except GoError Token) : Bool :=
  match r with
  | Except.ok _ => true
  | Except.error _ => false

/-- verifySessionCookieAndCheckRevoked from session_api_request.go: verify the
cookie, run checkRevoked on the resulting token, report the revocation
error when the returned flag is false, otherwise fetch and return the
account record for the token user id. -/
def verifySessionCookieAndCheckRevoked
    (newVerifier : String → Except GoError (String → Except GoError Token))
    (accounts : String → Except GoError UserRecord)
    (projectID : String) (cookie : String) : Except GoError UserRecord :=
  match verifySessionCookie newVerifier projectID cookie with
  | Except.error e => Except.error e
  | Except.ok token =>
    match checkRevoked accounts token with
    | Except.error e => Except.error e
    | Except.ok valid =>
      if valid = false then Except.error (GoError.message "Token has been revoked")
      else accounts token.UID

/-- Modelled from the spec: the account-lookup request type is declared in a
file not present here; per the spec it carries the two acceptable lookup
keys, account id and email, and the validators test whether either is
populated. -/
structure GetAccountInfoRequest where
  LocalID : List String
  Email : List String
  deriving DecidableEq

/-- Modelled from the spec: the account-lookup response type is declared in a
file not present here; per the spec it carries the result set of account
records.  Only its dynamic type identity and the emptiness of the result
set are consulted by the validators embedded below. -/
structure GetAccountInfoResponse where
  Users : List UserRecord
  deriving DecidableEq

/-- Request type from session_api_request.go for the create-session-cookie
operation. -/
structure CreateSessionCookieRequest where
  IDToken : String
  Duration : Int
  deriving DecidableEq

/-- Response type from session_api_request.go for the create-session-cookie
operation. -/
structure CreateSessionCookieResponse where
  SessionCookie : String
  deriving DecidableEq

/-- Dynamic value passed through the request dispatcher (Go: the interface
arguments of the apiSettings validators); one constructor per concrete
request or response type that reaches them. -/
inductive APIVal where
  | getAccountInfoReq (r : GetAccountInfoRequest)
  | getAccountInfoResp (r : GetAccountInfoResponse)
  | createSessionCookieReq (r : CreateSessionCookieRequest)
  | createSessionCookieResp (r : CreateSessionCookieResponse)
  deriving DecidableEq

/-- apiSettings from session_api_request.go: the declarative description of
one remote operation, with its request and response validators. -/
structure ApiSettings where
  method : String
  endpoint : String
  reqFn : APIVal → Option GoError
  respFn : APIVal → Option GoError

/-- createSessionCookieAPI from session_api_request.go: the request validator
type-asserts a getAccountInfoRequest and requires one of its two lookup
keys to be populated; the response validator type-asserts a
getAccountInfoResponse. -/
def createSessionCookieAPI : ApiSettings :=
  { method := "POST"
    endpoint := "createSessionCookie"
    reqFn := fun src =>
      match src with
      | APIVal.getAccountInfoReq r =>
        if r.LocalID.length = 0 ∧ r.Email.length = 0 then
          some GoError.missingRequestTarget
        else none
      | _ => some GoError.illegalType
    respFn := fun src =>
      match src with
      | APIVal.getAccountInfoResp _ => none
      | _ => some GoError.illegalType }

/-- Modelled from the spec: the dispatcher requestHandler.call is defined in a
file not present here.  Per the spec, the request validator of the
operation runs first and any failure aborts the call without a network
round trip; otherwise one round trip runs (the transport parameter, which
decodes the backend answer into the caller-supplied response value), its
failure is wrapped, and the response validator runs on the decoded
response before it is handed back. -/
def call (spec : ApiSettings) (req : APIVal)
    (transport : APIVal → Except GoError APIVal) : Except GoError APIVal :=
  match spec.reqFn req with
  | some e => Except.error e
  | none =>
    match transport req with
    | Except.error e => Except.error (GoError.wrap "transport" e)
    | Except.ok resp =>
      match spec.respFn resp with
      | some e => Except.error e
      | none => Except.ok resp

/-- createSessionCookie from session_api_request.go: builds the
create-session-cookie request from the token and the duration, calls the
dispatcher with createSessionCookieAPI, and returns the cookie string of
the response. -/
def handlerCreateSessionCookie (transport : APIVal → Except GoError APIVal)
    (idToken : String) (duration : Int) : Except GoError String :=
  let req := APIVal.createSessionCookieReq { IDToken := idToken, Duration := duration }
  match call createSessionCookieAPI req transport with
  | Except.error e => Except.error e
  | Except.ok resp =>
    match resp with
    | APIVal.createSessionCookieResp r => Except.ok r.SessionCookie
    | _ => Except.ok ""

/-- Modelled from the spec: the App type lives in a file not present here.
The registry reads only its name, the application identity; the second
field stands for the rest of the App configuration. -/
structure App where
  name : String
  rest : Nat
  deriving DecidableEq

/-- Auth instance from auth.go as stored in the registry: it holds the App it
was created for; the allocation counter models pointer identity of the
heap-allocated value. -/
structure AuthInst where
  app : App
  instId : Nat
  deriving DecidableEq

/-- authInstances from auth.go: the process-wide registry, a map from
application name to Auth instance, together with the allocation counter of
the identity model. -/
structure Registry where
  m : List (String × AuthInst)
  next : Nat

/-- GetAuthWithApp from auth.go: under the registry lock, when no instance is
registered under the application name a fresh one holding the app is
registered; the instance registered under the name is returned with a nil
error. -/
def getAuthWithApp (st : Registry) (app : App) :
    Registry × AuthInst × Option GoError :=
  let appName := app.name
  match mapLookup st.m appName with
  | some a => (st, a, none)
  | none =>
    let a : AuthInst := { app := app, instId := st.next }
    ({ m := mapInsert st.m appName a, next := st.next + 1 }, a, none)

/-- Seconds of a Go time.Duration (an int64 nanosecond count) as converted by
int64(d.Seconds()): the quotient by one billion truncated toward zero.
The Go code computes this through a float64; the float computation agrees
with the truncated quotient on every magnitude where the quotient is
exactly representable, which covers all admissible cookie durations. -/
def goDurationSeconds (d : Int) : Int :=
  Int.tdiv d 1000000000

/-- Duration value time.Hour * 24 * 5 from auth.go, in nanoseconds. -/
def fiveDaysDuration : Int :=
  3600000000000 * 24 * 5

/-- CreateSessionCookie from auth.go: after the token source is ensured, the
idToken is verified with VerifyIDToken and its error returned verbatim on
failure; the expiry defaults to the seconds of five days and is replaced
by the seconds of the duration when one is supplied; only then is the
create-session-cookie operation dispatched.  The token-source check, the
verifier and the dispatch are passed as parameters; the boolean of the
result records whether the dispatch ran. -/
def authCreateSessionCookie (ensureTS : Option GoError)
    (verifyIDToken : String → Except GoError Token)
    (dispatch : String → Int → Except GoError String)
    (idToken : String) (duration : Option Int) :
    Except GoError String × Bool :=
  match ensureTS with
  | some e => (Except.error (GoError.wrap "Error ensuring token source" e), false)
  | none =>
    match verifyIDToken idToken with
    | Except.error e => (Except.error e, false)
    | Except.ok _ =>
      let expiry :=
        match duration with
        | none => goDurationSeconds fiveDaysDuration
        | some d => goDurationSeconds d
      (dispatch idToken expiry, true)

/-- Statement of the distinguishability property of the spec, written from
its words: some verifier implementation, project identifier and token
string make the session-cookie verification path and the plain-ID-token
verification path disagree in acceptance. -/
def pathsDistinguishable : Prop :=
  ∃ (newVerifier : String → Except GoError (String → Except GoError Token))
    (projectID cookie : String),
    accepts (verifySessionCookie newVerifier projectID cookie) ≠
      accepts (verifyIDTokenWithTransport none newVerifier projectID cookie)

/-- Account record fixture with a revocation threshold of 1000 milliseconds. -/
def userAlice : UserRecord :=
  { UID := "alice", Email := "", TokensValidAfterMillis := 1000 }

/-- Account lookup fixture that returns the userAlice record for every id. -/
def accountsAlice : String → Except GoError UserRecord :=
  fun _ => Except.ok userAlice

/-- Token fixture issued at epoch second 0 (so 0 milliseconds, below the
userAlice threshold: the revocation condition holds for it). -/
def tokenRevokedAlice : Token :=
  { Issuer := "iss", Audience := "p", Expires := 100, IssuedAt := 0,
    Subject := "alice", UID := "alice", Claims := none }

/-- Token fixture issued at epoch second 2 (2000 milliseconds, at or above
the userAlice threshold: the revocation condition fails for it). -/
def tokenFreshAlice : Token :=
  { Issuer := "iss", Audience := "p", Expires := 100, IssuedAt := 2,
    Subject := "alice", UID := "alice", Claims := none }

/-- Verifier-constructor fixture whose verifier accepts every string and
decodes it to the given token. -/
def verifierReturning (t : Token) :
    String → Except GoError (String → Except GoError Token) :=
  fun _ => Except.ok (fun _ => Except.ok t)

/-- Token fixture whose user id is the empty string. -/
def tokenEmptyUID : Token :=
  { Issuer := "iss", Audience := "aud", Expires := 100, IssuedAt := 0,
    Subject := "sub", UID := "", Claims := none }

/-- Account lookup fixture that succeeds on every id, echoing the id and
holding a threshold of 1 millisecond. -/
def accountsEcho : String → Except GoError UserRecord :=
  fun u => Except.ok { UID := u, Email := "", TokensValidAfterMillis := 1 }

/-- Account record fixture with a revocation threshold of 5000 milliseconds. -/
def userBob : UserRecord :=
  { UID := "bob", Email := "", TokensValidAfterMillis := 5000 }

/-- Account lookup fixture that returns the userBob record for every id. -/
def accountsBob : String → Except GoError UserRecord :=
  fun _ => Except.ok userBob

/-- Token fixture issued at epoch second 5, exactly the userBob threshold
once converted to milliseconds. -/
def tokenBob : Token :=
  { Issuer := "iss", Audience := "aud", Expires := 100, IssuedAt := 5,
    Subject := "bob", UID := "bob", Claims := none }

/-- Token fixture with one existing custom claim. -/
def tokenMergeW : Token :=
  { Issuer := "iss", Audience := "aud", Expires := 100, IssuedAt := 1,
    Subject := "s", UID := "u", Claims := some [("a", GoVal.vInt 1)] }

/-- Claims fixture merged into tokenMergeW: overrides key a, adds key b. -/
def claimsMergeW : List (String × GoVal) :=
  [("a", GoVal.vStr "x"), ("b", GoVal.vBool true)]

/-- Token fixture with an empty (non-nil) Claims map, mirroring the
TestTokenEmptyClaims test of the repository. -/
def tokenEmptyClaims : Token :=
  { Issuer := "iss", Audience := "aud", Expires := 100, IssuedAt := 100,
    Subject := "sub", UID := "uid", Claims := some [] }

/-- App fixture named default. -/
def appW : App := { name := "default", rest := 0 }

/-- App fixture with the same name as appW but different remaining state. -/
def appW2 : App := { name := "default", rest := 1 }

/-- Empty registry fixture. -/
def regEmpty : Registry := { m := [], next := 0 }

/-- Verifier fixture that rejects every token string. -/
def verifyFailW : String → Except GoError Token :=
  fun _ => Except.error (GoError.message "invalid token")

/-- Dispatch fixture that returns a fixed cookie for every request. -/
def dispatchW : String → Int → Except GoError String :=
  fun _ _ => Except.ok "cookie"

/-- Token fixture returned by the accepting verifier fixture. -/
def tokenOkW : Token :=
  { Issuer := "iss", Audience := "aud", Expires := 100, IssuedAt := 1,
    Subject := "sub", UID := "uid", Claims := none }

/-- Verifier fixture that accepts every token string. -/
def verifyOkW : String → Except GoError Token :=
  fun _ => Except.ok tokenOkW

theorem mapLookup_mapInsert_self {β : Type _} (m : List (String × β))
    (k : String) (v : β) : mapLookup (mapInsert m k v) k = some v := by
  induction m with
  | nil => simp [mapInsert, mapLookup]
  | cons kv rest ih =>
    obtain ⟨k2, v2⟩ := kv
    by_cases h : k2 = k
    · simp [mapInsert, h, mapLookup]
    · simp [mapInsert, h, mapLookup, ih]

theorem mapLookup_mapInsert_ne {β : Type _} (m : List (String × β))
    (k key : String) (v : β) (h : k ≠ key) :
    mapLookup (mapInsert m k v) key = mapLookup m key := by
  induction m with
  | nil => simp [mapInsert, mapLookup, h]
  | cons kv rest ih =>
    obtain ⟨k2, v2⟩ := kv
    by_cases h2 : k2 = k
    · subst h2
      simp [mapInsert, mapLookup, h]
    · simp [mapInsert, h2, mapLookup, ih]

theorem mapLookup_eq_none_of_not_mem {β : Type _} (m : List (String × β))
    (key : String) (h : key ∉ m.map Prod.fst) : mapLookup m key = none := by
  induction m with
  | nil => rfl
  | cons kv rest ih =>
    obtain ⟨k2, v2⟩ := kv
    simp only [List.map_cons, List.mem_cons, not_or] at h
    have h1 : k2 ≠ key := fun hh => h.1 hh.symm
    simp [mapLookup, h1, ih h.2]

theorem insertAll_cons {β : Type _} (dst : List (String × β)) (k1 : String)
    (v1 : β) (rest : List (String × β)) :
    insertAll dst ((k1, v1) :: rest) = insertAll (mapInsert dst k1 v1) rest := rfl

theorem insertAll_lookup_none {β : Type _} (src : List (String × β)) :
    ∀ (dst : List (String × β)) (key : String), mapLookup src key = none →
      mapLookup (insertAll dst src) key = mapLookup dst key := by
  induction src with
  | nil => intro dst key _; rfl
  | cons kv rest ih =>
    intro dst key h
    obtain ⟨k1, v1⟩ := kv
    by_cases hk : k1 = key
    · simp [mapLookup, hk] at h
    · simp only [mapLookup, if_neg hk] at h
      rw [insertAll_cons, ih _ _ h, mapLookup_mapInsert_ne _ _ _ _ hk]

theorem insertAll_lookup_some {β : Type _} (src : List (String × β)) :
    ∀ (dst : List (String × β)) (key : String) (v : β),
      (src.map Prod.fst).Nodup → mapLookup src key = some v →
      mapLookup (insertAll dst src) key = some v := by
  induction src with
  | nil => intro dst key v _ h; simp [mapLookup] at h
  | cons kv rest ih =>
    intro dst key v hnd h
    obtain ⟨k1, v1⟩ := kv
    simp only [List.map_cons, List.nodup_cons] at hnd
    rw [insertAll_cons]
    by_cases hk : k1 = key
    · subst hk
      simp only [mapLookup, if_pos rfl] at h
      have hrest : mapLookup rest k1 = none :=
        mapLookup_eq_none_of_not_mem rest k1 hnd.1
      rw [insertAll_lookup_none rest (mapInsert dst k1 v1) k1 hrest,
        mapLookup_mapInsert_self]
      exact h
    · simp only [mapLookup, if_neg hk] at h
      exact ih (mapInsert dst k1 v1) key v hnd.2 h

theorem claimsLookup_some (m : List (String × GoVal)) (k : String) :
    claimsLookup (some m) k = mapLookup m k := rfl

/-- C1: the code inverts the revocation decision.  For a cookie decoding to a
token issued at second 0 against an account whose threshold is 1000
milliseconds the revocation condition holds, yet
verifySessionCookieAndCheckRevoked returns the account record; for a token
issued at second 2 the condition fails, yet it reports the revocation
error.  The claim states the opposite behaviour on both inputs. -/
theorem verifySessionCookieAndCheckRevoked_inverted :
    verifySessionCookieAndCheckRevoked (verifierReturning tokenRevokedAlice)
        accountsAlice "p" "cookie" = Except.ok userAlice ∧
    verifySessionCookieAndCheckRevoked (verifierReturning tokenFreshAlice)
        accountsAlice "p" "cookie" =
      Except.error (GoError.message "Token has been revoked") := by
  constructor <;> rfl

/-- C2: for every token whose user id resolves to an account record,
checkRevoked answers true exactly when the issue time in seconds times
1000 is strictly below the account threshold in milliseconds, and answers
false when the two sides are equal. -/
theorem checkRevoked_formula (accounts : String → Except GoError UserRecord)
    (token : Token) (user : UserRecord)
    (h : accounts token.UID = Except.ok user) :
    (checkRevoked accounts token = Except.ok true ↔
      token.IssuedAt * 1000 < user.TokensValidAfterMillis) ∧
    (token.IssuedAt * 1000 = user.TokensValidAfterMillis →
      checkRevoked accounts token = Except.ok false) := by
  have hc : checkRevoked accounts token =
      Except.ok (decide (token.IssuedAt * 1000 < user.TokensValidAfterMillis)) := by
    simp [checkRevoked, h]
  constructor
  · rw [hc]
    simp
  · intro he
    rw [hc, he]
    simp

/-- C2 witness: at the exact boundary (issued at second 5, threshold 5000
milliseconds) checkRevoked answers false. -/
theorem checkRevoked_formula_witness :
    checkRevoked accountsBob tokenBob = Except.ok false :=
  (checkRevoked_formula accountsBob tokenBob userBob rfl).2 (by decide)

/-- C3: the request validator of createSessionCookieAPI type-asserts the
account-lookup request type, but createSessionCookie hands it the
create-session-cookie request type, so every call reports IllegalType and
aborts before any round trip, for every transport, token and duration. -/
theorem handlerCreateSessionCookie_illegalType :
    ∀ (transport : APIVal → Except GoError APIVal) (idToken : String)
      (duration : Int),
      handlerCreateSessionCookie transport idToken duration =
        Except.error GoError.illegalType := by
  intro transport idToken duration
  rfl

/-- C4 counterexample: this proves the negation of the claim.  No verifier
implementation, project and token string make the session-cookie path and
the ID-token path differ in acceptance — both run the verifier built by
the same constructor on the same project identifier, so the acceptance
bits agree on every input; the claim asserts some input distinguishes
them. -/
theorem verify_paths_not_distinguishable : pathsDistinguishable = False := by
  apply eq_false
  rintro ⟨V, p, c, hne⟩
  exact hne rfl

/-- C4 amended: verifySessionCookie runs the verifier built by the same
constructor with the same project identifier as VerifyIDToken, so once the
service-account check succeeds the two paths return identical results on
every project and token string. -/
theorem verifySessionCookie_same_path :
    ∀ (newVerifier : String → Except GoError (String → Except GoError Token))
      (projectID cookie : String),
      verifySessionCookie newVerifier projectID cookie =
        verifyIDTokenWithTransport none newVerifier projectID cookie := by
  intro V p c
  rfl

/-- C5 counterexample: on a token whose user id is empty, checkRevoked does
not fail with a missing-user-id error: it fetches the account record for
the empty id and returns the revocation flag computed from the fetched
threshold; with a failing fetch it returns the fetch error, not a
missing-user-id error. -/
theorem checkRevoked_emptyUID_fetches :
    checkRevoked accountsEcho tokenEmptyUID = Except.ok true ∧
    checkRevoked (fun _ => Except.error (GoError.message "boom")) tokenEmptyUID =
      Except.error (GoError.message "boom") := by
  constructor <;> rfl

/-- C5 amended: checkRevoked performs no user-id validation at all: for every
token, with an empty or non-empty user id, it fetches the account record
for the id read from the token, and it fails exactly when that fetch
fails, with the fetch error itself — never with an error of its own. -/
theorem checkRevoked_error_iff (accounts : String → Except GoError UserRecord)
    (token : Token) (e : GoError) :
    checkRevoked accounts token = Except.error e ↔
      accounts token.UID = Except.error e := by
  unfold checkRevoked
  cases h : accounts token.UID <;> simp [h]

/-- C6: SetClaims is a merge: every key of the argument map ends mapped to
its value there, every other key keeps its previous value, the six scalar
fields are unchanged, and a nil Claims map becomes the argument map. -/
theorem setClaims_merge (t : Token) (m : List (String × GoVal))
    (hnd : (m.map Prod.fst).Nodup) :
    (∀ k v, mapLookup m k = some v →
      claimsLookup (t.SetClaims m).Claims k = some v) ∧
    (∀ k, mapLookup m k = none →
      claimsLookup (t.SetClaims m).Claims k = claimsLookup t.Claims k) ∧
    (t.SetClaims m).Issuer = t.Issuer ∧
    (t.SetClaims m).Audience = t.Audience ∧
    (t.SetClaims m).Expires = t.Expires ∧
    (t.SetClaims m).IssuedAt = t.IssuedAt ∧
    (t.SetClaims m).Subject = t.Subject ∧
    (t.SetClaims m).UID = t.UID ∧
    (t.Claims = none → (t.SetClaims m).Claims = some m) := by
  cases ht : t.Claims with
  | none =>
    refine ⟨?_, ?_, ?_, ?_, ?_, ?_, ?_, ?_, ?_⟩ <;>
      simp [Token.SetClaims, ht, claimsLookup]
  | some old =>
    refine ⟨?_, ?_, ?_, ?_, ?_, ?_, ?_, ?_, ?_⟩
    · intro k v h
      simp only [Token.SetClaims, ht, claimsLookup_some]
      exact insertAll_lookup_some m old k v hnd h
    · intro k h
      simp only [Token.SetClaims, ht, claimsLookup_some]
      exact insertAll_lookup_none m old k h
    · simp [Token.SetClaims, ht]
    · simp [Token.SetClaims, ht]
    · simp [Token.SetClaims, ht]
    · simp [Token.SetClaims, ht]
    · simp [Token.SetClaims, ht]
    · simp [Token.SetClaims, ht]
    · intro hn
      exact absurd hn (by simp)

/-- C6 witness: merging into a token holding one claim, the new key b is
mapped to its merged value and the UID field is unchanged. -/
theorem setClaims_merge_witness :
    claimsLookup (tokenMergeW.SetClaims claimsMergeW).Claims "b" =
      some (GoVal.vBool true) ∧
    (tokenMergeW.SetClaims claimsMergeW).UID = tokenMergeW.UID := by
  have h := setClaims_merge tokenMergeW claimsMergeW (by decide)
  exact ⟨h.1 "b" (GoVal.vBool true) (by decide), h.2.2.2.2.2.2.2.1⟩

/-- C7: GetAuthWithApp is an idempotent get-or-create keyed by the
application name: it never returns a non-nil error, and a second request
with any App of the same name returns the same instance as the first. -/
theorem getAuthWithApp_idempotent (st : Registry) (app app2 : App)
    (h : app2.name = app.name) :
    (getAuthWithApp st app).2.2 = none ∧
    (getAuthWithApp (getAuthWithApp st app).1 app2).2.2 = none ∧
    (getAuthWithApp (getAuthWithApp st app).1 app2).2.1 =
      (getAuthWithApp st app).2.1 := by
  unfold getAuthWithApp
  rw [h]
  cases hl : mapLookup st.m app.name with
  | some a => simp [hl]
  | none => simp [hl, mapLookup_mapInsert_self]

/-- C7 witness: starting from the empty registry, requesting the default app
twice (through two App values of the same name) yields no error and the
same instance. -/
theorem getAuthWithApp_idempotent_witness :
    (getAuthWithApp regEmpty appW).2.2 = none ∧
    (getAuthWithApp (getAuthWithApp regEmpty appW).1 appW2).2.2 = none ∧
    (getAuthWithApp (getAuthWithApp regEmpty appW).1 appW2).2.1 =
      (getAuthWithApp regEmpty appW).2.1 :=
  getAuthWithApp_idempotent regEmpty appW appW2 rfl

/-- C8: on a non-nil Claims map that lacks the accessed key or holds it with
the wrong dynamic type, each Token accessor returns the zero value of its
result type. -/
theorem token_accessors_default (t : Token) (m : List (String × GoVal))
    (hc : t.Claims = some m)
    (h1 : ∀ n : Int, mapLookup m "auth_time" ≠ some (GoVal.vInt n))
    (h2 : ∀ s : String, mapLookup m "name" ≠ some (GoVal.vStr s))
    (h3 : ∀ s : String, mapLookup m "picture" ≠ some (GoVal.vStr s))
    (h4 : ∀ s : String, mapLookup m "email" ≠ some (GoVal.vStr s))
    (h5 : ∀ b : Bool, mapLookup m "email_verified" ≠ some (GoVal.vBool b)) :
    t.AuthTime = 0 ∧ t.Name = "" ∧ t.Picture = "" ∧ t.Email = "" ∧
      t.IsEmailVerified = false := by
  refine ⟨?_, ?_, ?_, ?_, ?_⟩
  · unfold Token.AuthTime
    rw [hc, claimsLookup_some]
    cases hl : mapLookup m "auth_time" with
    | none => rfl
    | some v =>
      cases v with
      | vInt n => exact absurd hl (h1 n)
      | vStr s => rfl
      | vBool b => rfl
  · unfold Token.Name
    rw [hc, claimsLookup_some]
    cases hl : mapLookup m "name" with
    | none => rfl
    | some v =>
      cases v with
      | vInt n => rfl
      | vStr s => exact absurd hl (h2 s)
      | vBool b => rfl
  · unfold Token.Picture
    rw [hc, claimsLookup_some]
    cases hl : mapLookup m "picture" with
    | none => rfl
    | some v =>
      cases v with
      | vInt n => rfl
      | vStr s => exact absurd hl (h3 s)
      | vBool b => rfl
  · unfold Token.Email
    rw [hc, claimsLookup_some]
    cases hl : mapLookup m "email" with
    | none => rfl
    | some v =>
      cases v with
      | vInt n => rfl
      | vStr s => exact absurd hl (h4 s)
      | vBool b => rfl
  · unfold Token.IsEmailVerified
    rw [hc, claimsLookup_some]
    cases hl : mapLookup m "email_verified" with
    | none => rfl
    | some v =>
      cases v with
      | vInt n => rfl
      | vStr s => rfl
      | vBool b => exact absurd hl (h5 b)

/-- C8 witness: on the empty (non-nil) Claims map of the repository test,
every accessor returns its zero value. -/
theorem token_accessors_default_witness :
    tokenEmptyClaims.AuthTime = 0 ∧ tokenEmptyClaims.Name = "" ∧
    tokenEmptyClaims.Picture = "" ∧ tokenEmptyClaims.Email = "" ∧
    tokenEmptyClaims.IsEmailVerified = false :=
  token_accessors_default tokenEmptyClaims [] rfl
    (fun n h => by simp [mapLookup] at h)
    (fun s h => by simp [mapLookup] at h)
    (fun s h => by simp [mapLookup] at h)
    (fun s h => by simp [mapLookup] at h)
    (fun b h => by simp [mapLookup] at h)

/-- C9: when the token source is in place and VerifyIDToken rejects the
idToken, CreateSessionCookie returns that verification error unchanged and
the create-session-cookie operation is not dispatched. -/
theorem authCreateSessionCookie_verifyFail_noDispatch
    (verifyIDToken : String → Except GoError Token)
    (dispatch : String → Int → Except GoError String)
    (idToken : String) (duration : Option Int) (e : GoError)
    (h : verifyIDToken idToken = Except.error e) :
    authCreateSessionCookie none verifyIDToken dispatch idToken duration =
      (Except.error e, false) := by
  unfold authCreateSessionCookie
  rw [h]

/-- C9 witness: with a verifier rejecting every token, CreateSessionCookie
returns the verification error and records no dispatch. -/
theorem authCreateSessionCookie_verifyFail_noDispatch_witness :
    authCreateSessionCookie none verifyFailW dispatchW "tok" none =
      (Except.error (GoError.message "invalid token"), false) :=
  authCreateSessionCookie_verifyFail_noDispatch verifyFailW dispatchW "tok" none
    (GoError.message "invalid token") rfl

/-- C10: once verification succeeds, CreateSessionCookie dispatches with a
validity of 432000 seconds when no duration is supplied, and with the
whole seconds of the supplied duration otherwise. -/
theorem authCreateSessionCookie_duration
    (verifyIDToken : String → Except GoError Token)
    (dispatch : String → Int → Except GoError String)
    (idToken : String) (t : Token)
    (h : verifyIDToken idToken = Except.ok t) :
    authCreateSessionCookie none verifyIDToken dispatch idToken none =
      (dispatch idToken 432000, true) ∧
    ∀ d : Int,
      authCreateSessionCookie none verifyIDToken dispatch idToken (some d) =
        (dispatch idToken (goDurationSeconds d), true) := by
  have h432 : goDurationSeconds fiveDaysDuration = (432000 : Int) := by decide
  constructor
  · simp [authCreateSessionCookie, h, h432]
  · intro d
    simp [authCreateSessionCookie, h]

/-- C10 witness: with an accepting verifier and the fixed dispatch, the
default and a two-hour duration both reach the dispatch. -/
theorem authCreateSessionCookie_duration_witness :
    authCreateSessionCookie none verifyOkW dispatchW "tok" none =
      (Except.ok "cookie", true) ∧
    authCreateSessionCookie none verifyOkW dispatchW "tok"
        (some 7200000000000) = (Except.ok "cookie", true) := by
  have h := authCreateSessionCookie_duration verifyOkW dispatchW "tok" tokenOkW rfl
  exact ⟨h.1.trans rfl, (h.2 7200000000000).trans rfl⟩

end Firebase
